import Mathlib

/-!
# Stdlib_Result

A shallow embedding of `src/Stdlib_Result.bs.js`, the JavaScript that the ReScript
compiler emits for a module of seven functions over the `result` type.

A `result` is represented at run time as a block `{TAG: 0, _0: v}` (constructor `Ok`)
or `{TAG: 1, _0: e}` (constructor `Error`).  Every function of the module tests
`x.TAG === 0` and reads the payload `x._0`.

Two readings of the module are given.

* The pure reading (`Stdlib_Result.map`, ...): callbacks are mathematical functions.
  `getExnWithMessage` returns an `Except`, the `error` side being the thrown value.
* The effectful reading (`Stdlib_Result.Eff.map`, ...): callbacks are JavaScript
  computations that may change a store and may throw.  It is linked to the pure reading
  by the lemmas `Eff.*_pure`.
-/

namespace Stdlib_Result

universe u v w

/-- The run-time shape of a ReScript `result`: a block whose `TAG` is `0` (`Ok`) or
`1` (`Error`) and whose field `_0` is the payload. -/
inductive Result (α : Type u) (ε : Type v) where
  | Ok (_0 : α) : Result α ε
  | Error (_0 : ε) : Result α ε
  deriving DecidableEq, Repr

/-- The field `TAG` of the block: `/* Ok */0` or `/* Error */1`. -/
def Result.TAG {α : Type u} {ε : Type v} : Result α ε → Nat
  | .Ok _ => 0
  | .Error _ => 1

/-- The object built by `new Error(message)`: its description is the field `message`. -/
structure JsError where
  message : String
  deriving DecidableEq, Repr

/-- The description of a thrown error contains `msg`: `msg` is a contiguous run of the
characters of `message`. -/
def JsError.descriptionContains (err : JsError) (msg : String) : Prop :=
  msg.data <:+: err.message.data

instance (err : JsError) (msg : String) : Decidable (err.descriptionContains msg) :=
  inferInstanceAs (Decidable (msg.data <:+: err.message.data))

/-- Modelled from the spec: `Js_exn.raiseError` lives in `rescript/lib/js/js_exn.js`,
which is not part of the sources.  The spec says the call "fails (raises a fatal error)
carrying `message` as the error description": the call never returns and the thrown
error has the string as its description. -/
def Js_exn.raiseError {α : Type u} (str : String) : Except JsError α :=
  Except.error { message := str }

/-- Modelled from the spec: `Curry._1` lives in `rescript/lib/js/curry.js`, which is not
part of the sources.  It applies a function to one argument ("returns `f(v)`"). -/
def Curry._1 {α : Sort u} {β : Sort v} (f : α → β) (a0 : α) : β :=
  f a0

/-! ## Pure reading -/

/-- Source `getExnWithMessage(x, message)`: the payload of `Ok`, else `Js_exn.raiseError(message)`. -/
def getExnWithMessage {α : Type u} {ε : Type v} (x : Result α ε) (message : String) :
    Except JsError α :=
  match x with
  | .Ok _0 => Except.ok _0
  | .Error _ => Js_exn.raiseError message

/-- Source `mapWithDefault(opt, $$default, f)`: `f(opt._0)` on `Ok`, else the default. -/
def mapWithDefault {α : Type u} {ε : Type v} {β : Sort w}
    (opt : Result α ε) (default : β) (f : α → β) : β :=
  match opt with
  | .Ok _0 => Curry._1 f _0
  | .Error _ => default

/-- Source `map(opt, f)`: a fresh `Ok` block around `f(opt._0)`, else a fresh `Error` block
around the same payload. -/
def map {α : Type u} {ε : Type v} {β : Type w}
    (opt : Result α ε) (f : α → β) : Result β ε :=
  match opt with
  | .Ok _0 => .Ok (Curry._1 f _0)
  | .Error _0 => .Error _0

/-- Source `flatMap(opt, f)`: `f(opt._0)` itself, else a fresh `Error` block around the same
payload. -/
def flatMap {α : Type u} {ε : Type v} {β : Type w}
    (opt : Result α ε) (f : α → Result β ε) : Result β ε :=
  match opt with
  | .Ok _0 => Curry._1 f _0
  | .Error _0 => .Error _0

/-- Source `getWithDefault(opt, $$default)`: the payload of `Ok`, else the default. -/
def getWithDefault {α : Type u} {ε : Type v} (opt : Result α ε) (default : α) : α :=
  match opt with
  | .Ok _0 => _0
  | .Error _ => default

/-- Source `isOk(x)`: `if (x.TAG === 0) return true; else return false;`. -/
def isOk {α : Type u} {ε : Type v} (x : Result α ε) : Bool :=
  if x.TAG = 0 then true else false

/-- Source `isError(x)`: `if (x.TAG === 0) return false; else return true;`. -/
def isError {α : Type u} {ε : Type v} (x : Result α ε) : Bool :=
  if x.TAG = 0 then false else true

/-! ## Effectful reading

A JavaScript computation started in a store `s : σ` ends in a store and either returns
a value or throws a value of type `χ`; what it did to the store before throwing stays
done. -/

/-- A JavaScript computation over a store `σ`, throwing values of type `χ`. -/
abbrev JS (σ : Type u) (χ : Type v) (α : Type w) := σ → Except χ α × σ

namespace Eff

variable {σ : Type u} {χ : Type v}

/-- Source `mapWithDefault` with a callback that may write the store or throw: the
callback runs only in the `Ok` branch. -/
def mapWithDefault {α ε β : Type w}
    (opt : Result α ε) (default : β) (f : α → JS σ χ β) : JS σ χ β :=
  fun s =>
    match opt with
    | .Ok _0 => Curry._1 f _0 s
    | .Error _ => (Except.ok default, s)

/-- Source `map` with a callback that may write the store or throw: the `Ok` block is
built only when the callback returns. -/
def map {α ε β : Type w}
    (opt : Result α ε) (f : α → JS σ χ β) : JS σ χ (Result β ε) :=
  fun s =>
    match opt with
    | .Ok _0 =>
      match Curry._1 f _0 s with
      | (Except.ok b, s1) => (Except.ok (.Ok b), s1)
      | (Except.error x, s1) => (Except.error x, s1)
    | .Error _0 => (Except.ok (.Error _0), s)

/-- Source `flatMap` with a callback that may write the store or throw. -/
def flatMap {α ε β : Type w}
    (opt : Result α ε) (f : α → JS σ χ (Result β ε)) : JS σ χ (Result β ε) :=
  fun s =>
    match opt with
    | .Ok _0 => Curry._1 f _0 s
    | .Error _0 => (Except.ok (.Error _0), s)

/-- Source `getWithDefault` as a computation: it calls nothing and writes nothing. -/
def getWithDefault {α ε : Type w} (opt : Result α ε) (default : α) : JS σ χ α :=
  fun s =>
    match opt with
    | .Ok _0 => (Except.ok _0, s)
    | .Error _ => (Except.ok default, s)

/-- Source `isOk` as a computation: it calls nothing and writes nothing. -/
def isOk {α ε : Type w} (x : Result α ε) : JS σ χ Bool :=
  fun s => if x.TAG = 0 then (Except.ok true, s) else (Except.ok false, s)

/-- Source `isError` as a computation: it calls nothing and writes nothing. -/
def isError {α ε : Type w} (x : Result α ε) : JS σ χ Bool :=
  fun s => if x.TAG = 0 then (Except.ok false, s) else (Except.ok true, s)

/-- Source `getExnWithMessage` as a computation: it writes nothing, and throws what
`Js_exn.raiseError` throws. -/
def getExnWithMessage {α ε : Type w} (x : Result α ε) (message : String) :
    JS σ JsError α :=
  fun s =>
    match x with
    | .Ok _0 => (Except.ok _0, s)
    | .Error _ => (Js_exn.raiseError message, s)

/-- A computation returns from the store `s`: it ends with a value, not with a throw. -/
def Returns {α : Type w} (c : JS σ χ α) (s : σ) : Prop :=
  ∃ a s1, c s = (Except.ok a, s1)

/-- A computation raises from the store `s`: it ends with a thrown value. -/
def Raises {α : Type w} (c : JS σ χ α) (s : σ) : Prop :=
  ∃ x s1, c s = (Except.error x, s1)

end Eff

/-! ## Chains of `map` and `flatMap` steps -/

/-- One step of a chain: a `map` or a `flatMap` with its callback.  The error type `ε`
is fixed along the chain, the payload type goes from `α` to `β`. -/
inductive Step (ε : Type v) : Type u → Type u → Type (max (u + 1) v) where
  | map {α β : Type u} (f : α → β) : Step ε α β
  | flatMap {α β : Type u} (f : α → Result β ε) : Step ε α β

/-- Run one step on a result. -/
def Step.run {ε : Type v} {α β : Type u} (st : Step ε α β) (r : Result α ε) :
    Result β ε :=
  match st with
  | .map f => Stdlib_Result.map r f
  | .flatMap f => Stdlib_Result.flatMap r f

/-- A finite sequence of steps, applied left to right. -/
inductive Chain (ε : Type v) : Type u → Type u → Type (max (u + 1) v) where
  | nil {α : Type u} : Chain ε α α
  | cons {α β γ : Type u} (st : Step ε α β) (rest : Chain ε β γ) : Chain ε α γ

/-- Run a chain: each step is applied to the result of the one before. -/
def Chain.run {ε : Type v} {α γ : Type u} (c : Chain ε α γ) (r : Result α ε) :
    Result γ ε :=
  match c with
  | .nil => r
  | .cons st rest => rest.run (st.run r)

/-- The number of steps of a chain. -/
def Chain.length {ε : Type v} {α γ : Type u} : Chain ε α γ → Nat
  | .nil => 0
  | .cons _ rest => rest.length + 1

/-! ## Basic facts -/

theorem Result.TAG_Ok {α : Type u} {ε : Type v} (a : α) :
    (Result.Ok a : Result α ε).TAG = 0 := rfl

theorem Result.TAG_Error {α : Type u} {ε : Type v} (e : ε) :
    (Result.Error e : Result α ε).TAG = 1 := rfl

theorem Result.TAG_eq_zero_iff {α : Type u} {ε : Type v} (r : Result α ε) :
    r.TAG = 0 ↔ ∃ a, r = .Ok a := by
  cases r with
  | Ok a => exact ⟨fun _ => ⟨a, rfl⟩, fun _ => rfl⟩
  | Error e =>
    constructor
    · intro h
      simp [Result.TAG] at h
    · rintro ⟨a, h⟩
      cases h

theorem Result.TAG_eq_one_iff {α : Type u} {ε : Type v} (r : Result α ε) :
    r.TAG = 1 ↔ ∃ e, r = .Error e := by
  cases r with
  | Ok a =>
    constructor
    · intro h
      simp [Result.TAG] at h
    · rintro ⟨e, h⟩
      cases h
  | Error e => exact ⟨fun _ => ⟨e, rfl⟩, fun _ => rfl⟩

/-- A well-formed block carries one of the two tags. -/
theorem Result.TAG_lt_two {α : Type u} {ε : Type v} (r : Result α ε) : r.TAG < 2 := by
  cases r <;> simp [Result.TAG]

namespace Eff

variable {σ : Type u} {χ : Type v}

/-- Returning and raising exclude each other. -/
theorem Returns.not_raises {α : Type w} {c : JS σ χ α} {s : σ} (h : Returns c s) :
    ¬ Raises c s := by
  rintro ⟨x, s2, hx⟩
  obtain ⟨a, s1, ha⟩ := h
  rw [ha] at hx
  cases hx

/-- A computation that returns does so and does not raise. -/
theorem Returns.total {α : Type w} {c : JS σ χ α} {s : σ} (h : Returns c s) :
    Returns c s ∧ ¬ Raises c s :=
  ⟨h, h.not_raises⟩

/-- Every computation either returns or raises. -/
theorem returns_or_raises {α : Type w} (c : JS σ χ α) (s : σ) :
    Returns c s ∨ Raises c s := by
  rcases hc : c s with ⟨_ | _, s1⟩
  · exact Or.inr ⟨_, s1, hc⟩
  · exact Or.inl ⟨_, s1, hc⟩

/-! With callbacks that neither write nor throw, the effectful reading is the pure one. -/

theorem mapWithDefault_pure {α ε β : Type w} (opt : Result α ε) (d : β) (f : α → β)
    (s : σ) :
    (mapWithDefault opt d (fun a t => (Except.ok (f a), t)) : JS σ χ β) s
      = (Except.ok (Stdlib_Result.mapWithDefault opt d f), s) := by
  cases opt <;> rfl

theorem map_pure {α ε β : Type w} (opt : Result α ε) (f : α → β) (s : σ) :
    (map opt (fun a t => (Except.ok (f a), t)) : JS σ χ (Result β ε)) s
      = (Except.ok (Stdlib_Result.map opt f), s) := by
  cases opt <;> rfl

theorem flatMap_pure {α ε β : Type w} (opt : Result α ε) (f : α → Result β ε) (s : σ) :
    (flatMap opt (fun a t => (Except.ok (f a), t)) : JS σ χ (Result β ε)) s
      = (Except.ok (Stdlib_Result.flatMap opt f), s) := by
  cases opt <;> rfl

theorem getWithDefault_pure {α ε : Type w} (opt : Result α ε) (d : α) (s : σ) :
    (getWithDefault opt d : JS σ χ α) s
      = (Except.ok (Stdlib_Result.getWithDefault opt d), s) := by
  cases opt <;> rfl

theorem isOk_pure {α ε : Type w} (x : Result α ε) (s : σ) :
    (isOk x : JS σ χ Bool) s = (Except.ok (Stdlib_Result.isOk x), s) := by
  cases x <;> rfl

theorem isError_pure {α ε : Type w} (x : Result α ε) (s : σ) :
    (isError x : JS σ χ Bool) s = (Except.ok (Stdlib_Result.isError x), s) := by
  cases x <;> rfl

theorem getExnWithMessage_pure {α ε : Type w} (x : Result α ε) (msg : String) (s : σ) :
    (getExnWithMessage x msg : JS σ JsError α) s
      = (Stdlib_Result.getExnWithMessage x msg, s) := by
  cases x <;> rfl

end Eff

/-! ## The operations, case by case -/

/-- C1: for every value `v` and function `f`, `map(Ok(v), f)` is `Ok(f(v))`: the `Ok`
variant, with `f` applied to exactly `v` as payload; in particular
`map(Ok(5), x => x * 2)` is `Ok(10)`. -/
theorem map_Ok {α : Type u} {ε : Type v} {β : Type w} (a : α) (f : α → β) :
    map (Result.Ok a : Result α ε) f = Result.Ok (f a)
      ∧ (map (Result.Ok a : Result α ε) f).TAG = 0
      ∧ map (Result.Ok 5 : Result Int String) (fun x => x * 2) = Result.Ok 10 :=
  ⟨rfl, rfl, by decide⟩

/-- C2: for every error value `e` and function `f`, `map(Error(e), f)` is `Error(e)`:
the `Error` variant with the same `e`, which `f` has not touched. -/
theorem map_Error {α : Type u} {ε : Type v} {β : Type w} (e : ε) (f g : α → β) :
    map (Result.Error e : Result α ε) f = Result.Error e
      ∧ (map (Result.Error e : Result α ε) f).TAG = 1
      ∧ map (Result.Error e : Result α ε) f = map (Result.Error e : Result α ε) g :=
  ⟨rfl, rfl, rfl⟩

/-- C3: for every value `v` and result-returning `f`, `flatMap(Ok(v), f)` is `f(v)`
itself, with no extra wrapping: it is `Ok(u)` when `f(v)` is `Ok(u)` and `Error(e1)`
when `f(v)` is `Error(e1)`. -/
theorem flatMap_Ok {α : Type u} {ε : Type v} {β : Type w} (a : α)
    (f : α → Result β ε) :
    flatMap (Result.Ok a) f = f a
      ∧ (∀ b, f a = Result.Ok b → flatMap (Result.Ok a) f = Result.Ok b)
      ∧ (∀ e1, f a = Result.Error e1 → flatMap (Result.Ok a) f = Result.Error e1) :=
  ⟨rfl, fun _ h => h, fun _ h => h⟩

/-- C3 at `flatMap(Ok(5), x => x > 0 ? Ok(x) : Error("negative"))`, which is `Ok(5)`,
and at `-5`, where the callback's error comes out as it is. -/
theorem flatMap_Ok_witness :
    flatMap (Result.Ok 5 : Result Int String)
        (fun x => if x > 0 then Result.Ok x else Result.Error "negative") = Result.Ok 5
      ∧ flatMap (Result.Ok (-5) : Result Int String)
        (fun x => if x > 0 then Result.Ok x else Result.Error "negative")
          = Result.Error "negative" :=
  ⟨(flatMap_Ok (5 : Int) _).2.1 5 (by decide),
   (flatMap_Ok (-5 : Int) _).2.2 "negative" (by decide)⟩

/-- C4: for every error value `e` and function `f`, `flatMap(Error(e), f)` is
`Error(e)`, whatever `f` would return: any two callbacks give the same result. -/
theorem flatMap_Error {α : Type u} {ε : Type v} {β : Type w} (e : ε)
    (f g : α → Result β ε) :
    flatMap (Result.Error e) f = Result.Error e
      ∧ flatMap (Result.Error e) f = flatMap (Result.Error e) g :=
  ⟨rfl, rfl⟩

/-- C5: for every error value `e` and message `msg`, `getExnWithMessage(Error(e), msg)`
returns no value but raises; the description of the raised error is `msg`, so it
contains `msg`; and the outcome is the same for every `e`. -/
theorem getExnWithMessage_Error {α : Type u} {ε : Type v} (e : ε) (msg : String) :
    (∀ a : α, getExnWithMessage (Result.Error e : Result α ε) msg ≠ Except.ok a)
      ∧ (∃ err : JsError,
          getExnWithMessage (Result.Error e : Result α ε) msg = Except.error err
            ∧ err.message = msg ∧ err.descriptionContains msg)
      ∧ (∀ e1 : ε, getExnWithMessage (Result.Error e1 : Result α ε) msg
          = getExnWithMessage (Result.Error e : Result α ε) msg) := by
  refine ⟨?_, ⟨{ message := msg }, rfl, rfl, ?_⟩, fun _ => rfl⟩
  · intro a h
    simp [getExnWithMessage, Js_exn.raiseError] at h
  · exact List.infix_refl msg.data

/-- C6: for every value `v` and message `msg`, `getExnWithMessage(Ok(v), msg)` returns
exactly `v` and does not raise, whatever `msg` is. -/
theorem getExnWithMessage_Ok {α : Type u} {ε : Type v} (a : α) (msg : String) :
    getExnWithMessage (Result.Ok a : Result α ε) msg = Except.ok a
      ∧ (∀ err : JsError,
          getExnWithMessage (Result.Ok a : Result α ε) msg ≠ Except.error err) := by
  refine ⟨rfl, ?_⟩
  intro err h
  simp [getExnWithMessage] at h

/-! ## Failure -/

/-- C7: only `getExnWithMessage` can fail.  For every well-formed result `r`, from every
store, with callbacks `f` and `g` that return on every input, each of `mapWithDefault`,
`map`, `flatMap`, `getWithDefault`, `isOk` and `isError` returns a value and does not
raise; and `getExnWithMessage(r, msg)` raises exactly when `r` is the `Error` variant
(and returns exactly when it is `Ok`). -/
theorem only_getExnWithMessage_fails {σ : Type u} {χ : Type v} {α ε β : Type w}
    (r : Result α ε) (d : β) (d1 : α) (msg : String)
    (f : α → JS σ χ β) (g : α → JS σ χ (Result β ε)) (s : σ)
    (hf : ∀ a t, Eff.Returns (f a) t) (hg : ∀ a t, Eff.Returns (g a) t) :
    (Eff.Returns (Eff.mapWithDefault r d f) s ∧ ¬ Eff.Raises (Eff.mapWithDefault r d f) s)
      ∧ (Eff.Returns (Eff.map r f) s ∧ ¬ Eff.Raises (Eff.map r f) s)
      ∧ (Eff.Returns (Eff.flatMap r g) s ∧ ¬ Eff.Raises (Eff.flatMap r g) s)
      ∧ (Eff.Returns (Eff.getWithDefault r d1 : JS σ χ α) s
          ∧ ¬ Eff.Raises (Eff.getWithDefault r d1 : JS σ χ α) s)
      ∧ (Eff.Returns (Eff.isOk r : JS σ χ Bool) s
          ∧ ¬ Eff.Raises (Eff.isOk r : JS σ χ Bool) s)
      ∧ (Eff.Returns (Eff.isError r : JS σ χ Bool) s
          ∧ ¬ Eff.Raises (Eff.isError r : JS σ χ Bool) s)
      ∧ (Eff.Raises (Eff.getExnWithMessage r msg : JS σ JsError α) s ↔ ∃ e, r = .Error e)
      ∧ (Eff.Returns (Eff.getExnWithMessage r msg : JS σ JsError α) s ↔ ∃ a, r = .Ok a) := by
  refine ⟨Eff.Returns.total ?_, Eff.Returns.total ?_, Eff.Returns.total ?_,
    Eff.Returns.total ?_, Eff.Returns.total ?_, Eff.Returns.total ?_, ?_, ?_⟩
  · cases r with
    | Ok a => exact hf a s
    | Error e => exact ⟨d, s, rfl⟩
  · cases r with
    | Ok a =>
      obtain ⟨b, s1, hb⟩ := hf a s
      refine ⟨.Ok b, s1, ?_⟩
      simp only [Eff.map, Curry._1, hb]
    | Error e => exact ⟨.Error e, s, rfl⟩
  · cases r with
    | Ok a => exact hg a s
    | Error e => exact ⟨.Error e, s, rfl⟩
  · exact ⟨_, s, Eff.getWithDefault_pure r d1 s⟩
  · exact ⟨_, s, Eff.isOk_pure r s⟩
  · exact ⟨_, s, Eff.isError_pure r s⟩
  · cases r with
    | Ok a =>
      constructor
      · rintro ⟨x, s1, h⟩
        simp [Eff.getExnWithMessage] at h
      · rintro ⟨e, h⟩
        cases h
    | Error e => exact ⟨fun _ => ⟨e, rfl⟩, fun _ => ⟨{ message := msg }, s, rfl⟩⟩
  · cases r with
    | Ok a => exact ⟨fun _ => ⟨a, rfl⟩, fun _ => ⟨a, s, rfl⟩⟩
    | Error e =>
      constructor
      · rintro ⟨x, s1, h⟩
        simp [Eff.getExnWithMessage, Js_exn.raiseError] at h
      · rintro ⟨a, h⟩
        cases h

/-- C7 at `r = Ok(5)`, store `0`, with a callback that doubles its argument and counts
its calls in the store, and a callback that rejects what is not positive. -/
theorem only_getExnWithMessage_fails_witness :
    Eff.Returns (Eff.map (Result.Ok 5 : Result Int String)
        (fun a t => ((Except.ok (a * 2) : Except String Int), t + 1))) (0 : Nat)
      ∧ Eff.Returns (Eff.flatMap (Result.Ok 5 : Result Int String)
        (fun a t => ((Except.ok (if a > 0 then Result.Ok a else Result.Error "negative") :
          Except String (Result Int String)), t))) (0 : Nat)
      ∧ ¬ Eff.Raises (Eff.getExnWithMessage (Result.Ok 5 : Result Int String) "no value" :
          JS Nat JsError Int) 0 :=
  have h := only_getExnWithMessage_fails (Result.Ok 5 : Result Int String) (0 : Int) 0
    "no value" (fun a t => ((Except.ok (a * 2) : Except String Int), t + 1))
    (fun a t => ((Except.ok (if a > 0 then Result.Ok a else Result.Error "negative") :
      Except String (Result Int String)), t)) (0 : Nat)
    (fun _ _ => ⟨_, _, rfl⟩) (fun _ _ => ⟨_, _, rfl⟩)
  ⟨h.2.1.1, h.2.2.1.1, fun hr => by
    obtain ⟨e, he⟩ := h.2.2.2.2.2.2.1.mp hr
    cases he⟩

/-! ## Error pass-through -/

/-- C8: for every error value `e` and every finite sequence of `map` and `flatMap` steps,
with arbitrary callbacks, run from `Error(e)`, the final result is `Error(e)` with the
same `e`: it is not `Ok`, and it carries no other error. -/
theorem error_passes_through_chain {ε : Type v} {α γ : Type u} (c : Chain ε α γ) (e : ε) :
    c.run (Result.Error e) = Result.Error e
      ∧ (∀ b, c.run (Result.Error e) ≠ Result.Ok b)
      ∧ (∀ e1, c.run (Result.Error e) = Result.Error e1 → e1 = e) := by
  have key : c.run (Result.Error e) = Result.Error e := by
    induction c with
    | nil => rfl
    | cons st rest ih =>
      cases st with
      | map f => exact ih
      | flatMap f => exact ih
  refine ⟨key, ?_, ?_⟩
  · intro b h
    rw [key] at h
    cases h
  · intro e1 h
    rw [key] at h
    cases h
    rfl

/-! ## Variant tests -/

/-- C9: for every result `r`, `isError(r)` is the negation of `isOk(r)`: exactly one of
the two is true. -/
theorem isError_eq_not_isOk {α : Type u} {ε : Type v} (r : Result α ε) :
    isError r = !isOk r
      ∧ ((isOk r = true ∧ isError r = false) ∨ (isOk r = false ∧ isError r = true)) := by
  cases r with
  | Ok a => exact ⟨rfl, Or.inl ⟨rfl, rfl⟩⟩
  | Error e => exact ⟨rfl, Or.inr ⟨rfl, rfl⟩⟩

/-- C10: `isOk` decides the variant: `isOk(Ok(v))` is true and `isError(Ok(v))` false,
`isOk(Error(e))` is false and `isError(Error(e))` true; so `isOk(r)` is true exactly
when `r` is the `Ok` variant. -/
theorem isOk_decides_variant {α : Type u} {ε : Type v} (a : α) (e : ε) (r : Result α ε) :
    isOk (Result.Ok a : Result α ε) = true
      ∧ isError (Result.Ok a : Result α ε) = false
      ∧ isOk (Result.Error e : Result α ε) = false
      ∧ isError (Result.Error e : Result α ε) = true
      ∧ (isOk r = true ↔ ∃ a1, r = Result.Ok a1)
      ∧ (isError r = true ↔ ∃ e1, r = Result.Error e1) := by
  refine ⟨rfl, rfl, rfl, rfl, ?_, ?_⟩
  · rw [← Result.TAG_eq_zero_iff]
    simp [isOk]
  · cases r with
    | Ok a1 =>
      constructor
      · intro h
        simp [isError, Result.TAG] at h
      · rintro ⟨e1, h⟩
        cases h
    | Error e1 => exact ⟨fun _ => ⟨e1, rfl⟩, fun _ => rfl⟩

/-! ## Defaults -/

/-- C11: for every `v`, `e` and default `d`, `getWithDefault(Ok(v), d)` is `v`, whatever
the default, and `getWithDefault(Error(e), d)` is `d`, whatever the error value; in
particular `getWithDefault(Error("fail"), 0)` is `0`. -/
theorem getWithDefault_cases {α : Type u} {ε : Type v} (a d d1 : α) (e e1 : ε) :
    getWithDefault (Result.Ok a : Result α ε) d = a
      ∧ getWithDefault (Result.Ok a : Result α ε) d
          = getWithDefault (Result.Ok a : Result α ε) d1
      ∧ getWithDefault (Result.Error e : Result α ε) d = d
      ∧ getWithDefault (Result.Error e : Result α ε) d
          = getWithDefault (Result.Error e1 : Result α ε) d
      ∧ getWithDefault (Result.Error "fail" : Result Int String) 0 = 0 :=
  ⟨rfl, rfl, rfl, rfl, by decide⟩

/-- C12: for every `v`, `e`, default `d` and function `f`, `mapWithDefault(Ok(v), d, f)`
is `f(v)` and `mapWithDefault(Error(e), d, f)` is `d`, the default as it was given. -/
theorem mapWithDefault_cases {α : Type u} {ε : Type v} {β : Sort w} (a : α) (e : ε)
    (d : β) (f : α → β) :
    mapWithDefault (Result.Ok a : Result α ε) d f = f a
      ∧ mapWithDefault (Result.Error e : Result α ε) d f = d
      ∧ mapWithDefault (Result.Ok 5 : Result Int String) 0 (fun x => x * 2) = 10
      ∧ mapWithDefault (Result.Error "fail" : Result Int String) 0 (fun x => x * 2) = 0 :=
  ⟨rfl, rfl, by decide, by decide⟩

/-- C13: the callback is not evaluated on the error path of `mapWithDefault`.  With a
callback that may write the store or throw, `mapWithDefault(Error(e), d, f)` returns `d`
and leaves the store as it was, for every `f`: also for one that writes and throws on
every input; two callbacks give the same outcome.  On `Ok(v)` the outcome is that of
`f(v)`.  Last, a callback that logs its argument and throws, run on `Error("fail")`
with an empty log. -/
theorem mapWithDefault_Error_skips_callback {σ : Type u} {χ : Type v} {α ε β : Type w}
    (e : ε) (d : β) (f g : α → JS σ χ β) (x : χ) (wr : α → σ → σ) (s : σ) :
    Eff.mapWithDefault (Result.Error e) d f s = (Except.ok d, s)
      ∧ Eff.mapWithDefault (Result.Error e) d (fun a t => (Except.error x, wr a t)) s
          = (Except.ok d, s)
      ∧ Eff.mapWithDefault (Result.Error e) d f s = Eff.mapWithDefault (Result.Error e) d g s
      ∧ Eff.Returns (Eff.mapWithDefault (Result.Error e) d f) s
      ∧ (∀ a : α, Eff.mapWithDefault (Result.Ok a : Result α ε) d f s = f a s)
      ∧ Eff.mapWithDefault (Result.Error "fail" : Result Int String) (0 : Int)
          (fun a t => ((Except.error "boom" : Except String Int), a :: t)) ([] : List Int)
          = (Except.ok 0, [])
      ∧ Eff.mapWithDefault (Result.Ok 5 : Result Int String) (0 : Int)
          (fun a t => ((Except.error "boom" : Except String Int), a :: t)) ([] : List Int)
          = (Except.error "boom", [5]) :=
  ⟨rfl, rfl, rfl, ⟨d, s, rfl⟩, fun _ => rfl, rfl, rfl⟩

/-! ## Laws -/

/-- C14: functor composition law: for every result `r` and functions `f`, `g`,
`map(map(r, f), g)` equals `map(r, x => g(f(x)))`. -/
theorem map_map {α : Type u} {ε : Type v} {β : Type w} {γ : Type*}
    (r : Result α ε) (f : α → β) (g : β → γ) :
    map (map r f) g = map r (fun x => g (f x)) := by
  cases r with
  | Ok a => rfl
  | Error e => rfl

/-- C15: functor identity law: for every result `r`, `map(r, x => x)` is structurally
equal to `r`: `Ok(v)` stays `Ok(v)` and `Error(e)` stays `Error(e)`. -/
theorem map_id {α : Type u} {ε : Type v} (r : Result α ε) (a : α) (e : ε) :
    map r (fun x => x) = r
      ∧ map (Result.Ok a : Result α ε) (fun x => x) = Result.Ok a
      ∧ map (Result.Error e : Result α ε) (fun x => x) = Result.Error e := by
  refine ⟨?_, rfl, rfl⟩
  cases r with
  | Ok a1 => rfl
  | Error e1 => rfl

/-- C16: `flatMap` is associative: for every result `r` and result-returning `f`, `g`,
`flatMap(flatMap(r, f), g)` equals `flatMap(r, x => flatMap(f(x), g))`. -/
theorem flatMap_assoc {α : Type u} {ε : Type v} {β : Type w} {γ : Type*}
    (r : Result α ε) (f : α → Result β ε) (g : β → Result γ ε) :
    flatMap (flatMap r f) g = flatMap r (fun x => flatMap (f x) g) := by
  cases r with
  | Ok a => rfl
  | Error e => rfl

/-- C17: right identity of `flatMap`: for every result `r`, `flatMap(r, v => Ok(v))` is
structurally equal to `r`. -/
theorem flatMap_Ok_right {α : Type u} {ε : Type v} (r : Result α ε) :
    flatMap r (fun a => Result.Ok a) = r := by
  cases r with
  | Ok a => rfl
  | Error e => rfl

/-- C18: `map` is `flatMap` with a continuation that wraps in `Ok`: for every result `r`
and function `f`, `map(r, f)` equals `flatMap(r, v => Ok(f(v)))`. -/
theorem map_eq_flatMap {α : Type u} {ε : Type v} {β : Type w}
    (r : Result α ε) (f : α → β) :
    map r f = flatMap r (fun a => Result.Ok (f a)) := by
  cases r with
  | Ok a => rfl
  | Error e => rfl

end Stdlib_Result
